import Mathlib

/-!
Verification development for the reward-activity automation engine:
a shallow embedding of the selector candidate builder, the overlay
manager, the two resilient click executors (`Workers.robustTryClickSelector`
and `Quiz.clickWithRetries`), the activity dispatcher
(`Workers.solveActivities` and the three entry points), and the completion
protocols (Poll, standard Quiz, ABC, SearchOnBing), together with theorems
about their documented properties.
-/

namespace Rewards

/-! ### Click outcomes

`ClickReason` enumerates every reason string that appears in the two click
executors (`Workers.robustTryClickSelector` in Workers.ts and
`Quiz.clickWithRetries` in the extended Quiz class): the five documented
reasons plus `visibility-check-error` (produced by `isVisibleAndClickable`'s
catch branch) and `no-candidates` (returned by `clickWithRetries` when the
heuristic fallback scan finds nothing). -/

inductive ClickReason where
  | notFound
  | zeroBoundingBox
  | cssHidden
  | clickFailed
  | maxRetries
  | visibilityCheckError
  | noCandidates
deriving DecidableEq, Repr

/-- Result shape `{ success: boolean, reason?: string, popup?: Page }`;
the popup payload is modelled by a Bool recording whether a popup page
was detected. -/
inductive ClickOutcome where
  | success (popup : Bool)
  | failure (reason : ClickReason)
deriving DecidableEq, Repr

/-! ### Workers.robustTryClickSelector

One attempt (`tryOnce`) observes the page through an `AttemptState`:
whether `page.$(sel)` resolves a handle, whether the bounding box is
non-zero, whether the computed style marks the element hidden, how many
overlapping overlays `hideOverlappingOverlays` would hide, and whether any
strategy of the click cascade succeeds.  `visCheckThrows` models an
exception inside the visibility try-block (caught at its catch, which
falls through to the click attempts before any overlay was hidden: the
hide call is the last statement of that try-block). -/

structure AttemptState where
  visCheckThrows : Bool
  found : Bool
  boxNonzero : Bool
  cssHidden : Bool
  overlaysHidden : Nat
  clickWorks : Bool
  popup : Bool
deriving DecidableEq, Repr

/-- The click-strategy cascade of `tryOnce` followed by the unconditional
`restoreHiddenOverlays` call: the restore runs before the outcome is
evaluated, so no overlays remain hidden (second component) on either the
`click-failed` or the success return. -/
def clickPhase (s : AttemptState) (_hiddenBeforeRestore : Nat) : ClickOutcome × Nat :=
  if s.clickWorks then (ClickOutcome.success s.popup, 0)
  else (ClickOutcome.failure ClickReason.clickFailed, 0)

/-- One attempt of `robustTryClickSelector` (its inner `tryOnce`).  Returns
the outcome and the number of overlays left hidden when control returns.
Paths: element missing after the wait gives `not-found`; zero box gives
`zero-bounding-box`; style-hidden with no overlay suppressed gives
`css-hidden`; style-hidden with overlays suppressed proceeds to the click
cascade with those overlays hidden; a throw inside the visibility block is
swallowed and the click cascade runs with nothing hidden. -/
def tryOnce (s : AttemptState) : ClickOutcome × Nat :=
  if s.visCheckThrows then clickPhase s 0
  else if !s.found then (ClickOutcome.failure ClickReason.notFound, 0)
  else if !s.boxNonzero then (ClickOutcome.failure ClickReason.zeroBoundingBox, 0)
  else if s.cssHidden then
    (if s.overlaysHidden = 0 then (ClickOutcome.failure ClickReason.cssHidden, 0)
     else clickPhase s s.overlaysHidden)
  else clickPhase s 0

/-- The retry predicate of the outer loop of `robustTryClickSelector`:
`['click-failed', 'visibility-check-error', 'css-hidden'].includes(reason)`. -/
def retriableReason (r : ClickReason) : Bool :=
  decide (r = ClickReason.clickFailed) ||
  decide (r = ClickReason.visibilityCheckError) ||
  decide (r = ClickReason.cssHidden)

/-- `retriableReason` lifted to a full attempt result (a failed attempt with
a retriable reason). -/
def retriableOutcome : ClickOutcome × Nat → Bool
  | (ClickOutcome.failure r, _) => retriableReason r
  | (ClickOutcome.success _, _) => false

/-- Result of a full executor run: the outcome, how many `tryOnce`
invocations were spent, and how many suppressed overlays remain hidden at
return. -/
structure RunResult where
  outcome : ClickOutcome
  attempts : Nat
  hiddenLeft : Nat
deriving DecidableEq, Repr

/-- The outer attempt loop of `robustTryClickSelector`: the list carries
the page observation of each successive attempt (its length is
`maxAttempts`).  Success returns at once; a retriable failure pauses and
retries; any other failure is returned to the caller; running out of
attempts yields `max-retries`. -/
def robustLoop : List AttemptState → Nat → RunResult
  | [], hidden => ⟨ClickOutcome.failure ClickReason.maxRetries, 0, hidden⟩
  | s :: rest, hidden =>
    match tryOnce s with
    | (ClickOutcome.success p, d) => ⟨ClickOutcome.success p, 1, hidden + d⟩
    | (ClickOutcome.failure reason, d) =>
      if retriableReason reason then
        let k := robustLoop rest (hidden + d)
        ⟨k.outcome, k.attempts + 1, k.hiddenLeft⟩
      else ⟨ClickOutcome.failure reason, 1, hidden + d⟩

/-- `Workers.robustTryClickSelector`: run the attempt loop starting with no
overlays suppressed. -/
def robustTryClickSelector (states : List AttemptState) : RunResult :=
  robustLoop states 0

/-! ### Quiz.clickWithRetries (extended Quiz class)

The second resilient click executor.  Its visibility helper
`isVisibleAndClickable` can additionally report `visibility-check-error`
(its catch branch).  Crucially, on a `css-hidden` report the function calls
`hideBlockingOverlays` and proceeds to the click attempt *without ever
restoring* the hidden overlays: no restore call exists anywhere in
`clickWithRetries`. -/

structure AttemptStateQ where
  visCheckError : Bool
  found : Bool
  boxNonzero : Bool
  cssHidden : Bool
  overlaysHidden : Nat
  clickWorks : Bool
  popup : Bool
deriving DecidableEq, Repr

/-- `isVisibleAndClickable`: `none` means ok; otherwise the failure reason
(`visibility-check-error` for a throw inside the helper, then the
`not-found` / `zero-bounding-box` / `css-hidden` checks in source order). -/
def isVisibleAndClickable (s : AttemptStateQ) : Option ClickReason :=
  if s.visCheckError then some ClickReason.visibilityCheckError
  else if !s.found then some ClickReason.notFound
  else if !s.boxNonzero then some ClickReason.zeroBoundingBox
  else if s.cssHidden then some ClickReason.cssHidden
  else none

/-- The click cascade of `tryClickOnce`; the overlays hidden earlier in the
attempt stay hidden on both the failure and the success return (there is
no restore call in `clickWithRetries`). -/
def clickPhaseQ (s : AttemptStateQ) (hiddenLeft : Nat) : ClickOutcome × Nat :=
  if s.clickWorks then (ClickOutcome.success s.popup, hiddenLeft)
  else (ClickOutcome.failure ClickReason.clickFailed, hiddenLeft)

/-- One attempt of `clickWithRetries` (its inner `tryClickOnce`).  Returns
the outcome and the number of overlays this attempt hid and left hidden.
`not-found` and `zero-bounding-box` short-circuit; `css-hidden` triggers
`hideBlockingOverlays` and then proceeds to the click attempt regardless;
`visibility-check-error` and ok both proceed directly to the click attempt. -/
def tryClickOnceQ (s : AttemptStateQ) : ClickOutcome × Nat :=
  match isVisibleAndClickable s with
  | some ClickReason.notFound => (ClickOutcome.failure ClickReason.notFound, 0)
  | some ClickReason.zeroBoundingBox => (ClickOutcome.failure ClickReason.zeroBoundingBox, 0)
  | some ClickReason.cssHidden => clickPhaseQ s s.overlaysHidden
  | _ => clickPhaseQ s 0

/-- Step 1 of `clickWithRetries`: try the caller's selector up to
`maxAttempts` times (the list length).  Success returns; a `css-hidden` or
`visibility-check-error` failure retries; any other failure `break`s.  Both
`break` and attempt exhaustion fall through (`none`) to the heuristic
candidate scan.  The Nat accumulates overlays left hidden. -/
def cwrFirstLoop : List AttemptStateQ → Nat → Option ClickOutcome × Nat
  | [], hidden => (none, hidden)
  | s :: rest, hidden =>
    match tryClickOnceQ s with
    | (ClickOutcome.success p, d) => (some (ClickOutcome.success p), hidden + d)
    | (ClickOutcome.failure reason, d) =>
      if reason = ClickReason.cssHidden ∨ reason = ClickReason.visibilityCheckError then
        cwrFirstLoop rest (hidden + d)
      else (none, hidden + d)

/-- Step 2 inner loop: one heuristic candidate is retried up to
`maxAttempts` times; a reason outside
`['css-hidden','visibility-check-error','click-failed']` stops trying this
candidate (`none` moves on to the next). -/
def cwrOneCand : List AttemptStateQ → Nat → Option ClickOutcome × Nat
  | [], hidden => (none, hidden)
  | s :: rest, hidden =>
    match tryClickOnceQ s with
    | (ClickOutcome.success p, d) => (some (ClickOutcome.success p), hidden + d)
    | (ClickOutcome.failure reason, d) =>
      if reason = ClickReason.cssHidden ∨ reason = ClickReason.visibilityCheckError ∨
         reason = ClickReason.clickFailed then
        cwrOneCand rest (hidden + d)
      else (none, hidden + d)

/-- Step 2 outer loop over the heuristic candidates from
`findDailyCandidates`; exhausting every candidate yields `max-retries`. -/
def cwrCands : List (List AttemptStateQ) → Nat → ClickOutcome × Nat
  | [], hidden => (ClickOutcome.failure ClickReason.maxRetries, hidden)
  | c :: cs, hidden =>
    match cwrOneCand c hidden with
    | (some out, h) => (out, h)
    | (none, h) => cwrCands cs h

/-- `Quiz.clickWithRetries`: the primary-selector loop, then the heuristic
candidate scan (`no-candidates` when the scan finds nothing).  The Nat
component is the number of overlays hidden by `hideBlockingOverlays` and
never restored when control returns to the caller. -/
def clickWithRetries (primary : List AttemptStateQ)
    (candidates : List (List AttemptStateQ)) : ClickOutcome × Nat :=
  match cwrFirstLoop primary 0 with
  | (some out, h) => (out, h)
  | (none, h) =>
    if candidates.isEmpty then (ClickOutcome.failure ClickReason.noCandidates, h)
    else cwrCands candidates h

/-! ### Activity records and the three dispatch entry points -/

/-- The fields of `PromotionalItem` / `MorePromotion` consulted by the
dispatcher.  The three Bool flags record the substring tests the classifier
performs on `destinationUrl` and `name` (`pollscenarioid`, `exploreonbing`,
`form=dsetqu`). -/
structure ActivityRecord where
  offerId : String
  name : String
  title : String
  promotionType : String
  pointProgressMax : Int
  complete : Bool
  exclusiveLockedFeatureStatus : String
  destHasPollScenario : Bool
  nameHasExploreOnBing : Bool
  destHasFormDsetqu : Bool
deriving DecidableEq, Repr

/-- A punch card: `hasParent` is whether `parentPromotion` exists,
`parentTitle` is its title (`""` for a missing/falsy title). -/
structure PunchCard where
  hasParent : Bool
  parentComplete : Bool
  parentTitle : String
  childPromotions : List ActivityRecord
deriving DecidableEq, Repr

/-- `doDailySet` pre-filter:
`todayData?.filter(x => !x.complete && x.pointProgressMax > 0) ?? []`. -/
def dailySetUncompleted (todayData : Option (List ActivityRecord)) : List ActivityRecord :=
  (todayData.getD []).filter (fun x => !x.complete && decide (0 < x.pointProgressMax))

/-- `doMorePromotions` pre-filter: the promotional item is appended to
`morePromotions`, then
`filter(x => !x.complete && x.pointProgressMax > 0 && x.exclusiveLockedFeatureStatus !== 'locked')`. -/
def morePromotionsUncompleted (more : List ActivityRecord)
    (promotionalItem : Option ActivityRecord) : List ActivityRecord :=
  (more ++ promotionalItem.toList).filter
    (fun x => !x.complete && decide (0 < x.pointProgressMax) &&
      decide (x.exclusiveLockedFeatureStatus ≠ "locked"))

/-- `doPunchCard` card-level filter:
`punchCards?.filter(x => x.parentPromotion && !x.parentPromotion.complete) ?? []`. -/
def punchCardsUncompleted (cards : List PunchCard) : List PunchCard :=
  cards.filter (fun x => x.hasParent && !x.parentComplete)

/-- The child activities `doPunchCard` hands to `solveActivities` for one
card: after the `parentPromotion?.title` guard (`continue` when falsy), the
children are filtered only by `!x.complete` — there is no
`pointProgressMax` test on this path. -/
def punchCardActivities (pc : PunchCard) : List ActivityRecord :=
  if pc.hasParent = true ∧ pc.parentTitle ≠ "" then
    pc.childPromotions.filter (fun x => !x.complete)
  else []

/-- Every activity record that `doPunchCard` dispatches to
`solveActivities` across the whole card list. -/
def punchCardDispatched (cards : List PunchCard) : List ActivityRecord :=
  (punchCardsUncompleted cards).flatMap punchCardActivities

/-! ### Classification and the per-activity dispatcher loop -/

inductive Protocol where
  | poll
  | abc
  | thisOrThat
  | quizStd
  | searchOnBing
  | urlRewardPlain
  | unsupported
deriving DecidableEq, Repr

/-- The `switch (promotionType)` classification in `solveActivities`:
`quiz` sub-classified by `pointProgressMax` (10 with a poll marker in the
destination URL → Poll, 10 otherwise → ABC, 50 → ThisOrThat, default →
standard Quiz); `urlreward` split by the explore/query-form markers; any
other type is unsupported. -/
def classifyActivity (a : ActivityRecord) : Protocol :=
  if a.promotionType = "quiz" then
    if a.pointProgressMax = 10 then
      if a.destHasPollScenario then Protocol.poll else Protocol.abc
    else if a.pointProgressMax = 50 then Protocol.thisOrThat
    else Protocol.quizStd
  else if a.promotionType = "urlreward" then
    if a.nameHasExploreOnBing || a.destHasFormDsetqu then Protocol.searchOnBing
    else Protocol.urlRewardPlain
  else Protocol.unsupported

/-- The per-activity outcome logged by the dispatcher loop. -/
inductive ActOutcome where
  | protocolRun
  | skippedNoClick
  | skippedUnsupported
deriving DecidableEq, Repr

/-- One entry of the dispatcher's log: the activity ran to an outcome, or
its exception was caught by the per-activity `catch` and logged. -/
inductive LoopLog where
  | completed (o : ActOutcome)
  | errorLogged
deriving DecidableEq, Repr

/-- The environment one iteration of `solveActivities` observes: the
activity record, the `robustTryClickSelector` result for each candidate
selector in order, and whether the tab/navigation prelude or the invoked
completion protocol throws. -/
structure ActivityEnv where
  activity : ActivityRecord
  candResults : List ClickOutcome
  preludeThrows : Bool
  protocolThrows : Bool
deriving DecidableEq, Repr

/-- The candidate loop of `solveActivities`: candidates are tried in
order, capped at `maxCandidatesToTry = 5`; the first success wins
(returning its popup flag); otherwise the activity is unresolvable. -/
def tryCandidates : List ClickOutcome → Nat → Option Bool
  | [], _ => none
  | _ :: _, 0 => none
  | r :: rest, cap + 1 =>
    match r with
    | ClickOutcome.success p => some p
    | ClickOutcome.failure _ => tryCandidates rest cap

/-- The body of one `solveActivities` iteration (everything inside its
`try`): prelude, candidate clicking, classification, protocol invocation.
An exception anywhere surfaces as `Except.error`. -/
def activityBody (e : ActivityEnv) : Except String ActOutcome :=
  if e.preludeThrows then Except.error "page-error"
  else
    match tryCandidates e.candResults 5 with
    | none => Except.ok ActOutcome.skippedNoClick
    | some _ =>
      match classifyActivity e.activity with
      | Protocol.unsupported => Except.ok ActOutcome.skippedUnsupported
      | _ =>
        if e.protocolThrows then Except.error "protocol-error"
        else Except.ok ActOutcome.protocolRun

/-- `Workers.solveActivities`: the per-activity loop.  Each iteration's
body runs inside `try { ... } catch (error) { log }`, so an error is
converted to a logged entry and the loop continues with the next
activity. -/
def solveActivities : List ActivityEnv → List LoopLog
  | [] => []
  | e :: rest =>
    (match activityBody e with
     | Except.ok o => LoopLog.completed o
     | Except.error _ => LoopLog.errorLogged) :: solveActivities rest

/-! ### The overlay manager (hideOverlappingOverlays / restoreHiddenOverlays)

A DOM element is modelled by the observables the overlay code reads and
writes: its identity, its inline `display` declaration (what
`style.setProperty('display', 'none', 'important')` writes and
`style.removeProperty('display')` erases), the `display` the style sheets
would otherwise give it, opacity-zero, `position`, bounding rectangle, and
the `data-qa-hidden-temp` marker attribute. -/

structure Elem where
  idTag : Nat
  inlineDisplay : Option String
  sheetDisplay : String
  opacityZero : Bool
  position : String
  left : Int
  top : Int
  right : Int
  bottom : Int
  hiddenMarker : Bool
deriving DecidableEq, Repr

/-- The computed `display`: the inline declaration wins over the sheet. -/
def computedDisplay (e : Elem) : String :=
  e.inlineDisplay.getD e.sheetDisplay

/-- The overlap test
`!(r.right < t.left || r.left > t.right || r.bottom < t.top || r.top > t.bottom)`. -/
def overlaps (t e : Elem) : Bool :=
  !(decide (e.right < t.left) || decide (e.left > t.right) ||
    decide (e.bottom < t.top) || decide (e.top > t.bottom))

/-- Eligibility of one element for suppression in
`hideOverlappingOverlays`: not the target itself, currently displayed and
not transparent, positioned `fixed`/`absolute`/`sticky`, non-zero
rectangle, and overlapping the target's box. -/
def suppressTargets (t e : Elem) : Bool :=
  decide (e.idTag ≠ t.idTag) &&
  decide (computedDisplay e ≠ "none") && !e.opacityZero &&
  (decide (e.position = "fixed") || decide (e.position = "absolute") ||
   decide (e.position = "sticky")) &&
  decide (e.right - e.left ≠ 0) && decide (e.bottom - e.top ≠ 0) &&
  overlaps t e

/-- The mutation applied to a suppressed element: set the
`data-qa-hidden-temp` marker and force `display:none` inline. -/
def hideFn (t : Elem) (e : Elem) : Elem :=
  if suppressTargets t e then
    { e with hiddenMarker := true, inlineDisplay := some "none" }
  else e

/-- The mutation `restoreHiddenOverlays` applies to every marked element:
drop the marker and *remove* the inline `display` property (it does not
restore a previous inline value). -/
def restoreFn (e : Elem) : Elem :=
  if e.hiddenMarker then { e with hiddenMarker := false, inlineDisplay := none }
  else e

/-- `Workers.hideOverlappingOverlays`: resolve the target (first element
with the given id, as `querySelector` does), hide every eligible
overlapping element, and return the new DOM with the count hidden.  An
unresolved target returns the DOM unchanged with count 0. -/
def hideOverlappingOverlays (dom : List Elem) (targetId : Nat) : List Elem × Nat :=
  match dom.find? (fun e => e.idTag = targetId) with
  | none => (dom, 0)
  | some t =>
    (dom.map (hideFn t), (dom.filter (fun e => suppressTargets t e)).length)

/-- `Workers.restoreHiddenOverlays`: restore every element carrying the
marker and return the count restored. -/
def restoreHiddenOverlays (dom : List Elem) : List Elem × Nat :=
  (dom.map restoreFn, (dom.filter (fun e => e.hiddenMarker)).length)

/-- The observably visible elements of a DOM state (displayed and not
transparent), by identity. -/
def visibleIds (dom : List Elem) : List Nat :=
  (dom.filter (fun e => decide (computedDisplay e ≠ "none") && !e.opacityZero)).map
    (fun e => e.idTag)

/-! ### Workers.buildSelectorsForActivity -/

/-- The escaping step `(s || '').replace(/"/g, '\\"')`. -/
def escQuotes (s : String) : String :=
  s.replace "\"" "\\\""

/-- `[data-bi-id^="v"] .pointLink:not(.contentContainer .pointLink)`. -/
def prefixAttrSelector (v : String) : String :=
  "[data-bi-id^=\"" ++ v ++ "\"] .pointLink:not(.contentContainer .pointLink)"

/-- `[data-bi-id*="v"] .pointLink:not(.contentContainer .pointLink)`. -/
def substringAttrSelector (v : String) : String :=
  "[data-bi-id*=\"" ++ v ++ "\"] .pointLink:not(.contentContainer .pointLink)"

/-- `[data-bi-id="v"] .pointLink:not(.contentContainer .pointLink)`
(emitted by the heuristic page scan). -/
def exactAttrSelector (v : String) : String :=
  "[data-bi-id=\"" ++ v ++ "\"] .pointLink:not(.contentContainer .pointLink)"

/-- The first generic fallback pushed by the builder. -/
def fallbackScoped : String :=
  ".pointLink:not(.contentContainer .pointLink)"

/-- The second generic fallback pushed by the builder. -/
def fallbackPlain : String :=
  ".pointLink"

/-- Insertion-ordered de-duplication, as `Array.from(new Set(xs))` and the
heuristic scan's `seen` set perform it: keep the first occurrence of each
element. -/
def jsDedupAux {α : Type} [DecidableEq α] : List α → List α → List α
  | [], _ => []
  | a :: l, seen =>
    if a ∈ seen then jsDedupAux l seen else a :: jsDedupAux l (a :: seen)

/-- `Array.from(new Set(xs))`. -/
def jsDedup {α : Type} [DecidableEq α] (l : List α) : List α :=
  jsDedupAux l []

/-- `Workers.buildSelectorsForActivity`.  `offerId`/`name` are `""` when
the field is falsy; `heuristicIds` are the ancestor `data-bi-id` values the
in-page heuristic scan matched (in DOM order); `heuristicFails` models the
catch around `page.evaluate` (scan failure contributes nothing).  The scan
itself de-duplicates its output through a `seen` set; its strings are then
pushed only if not already among the candidates (subsumed by the final
de-duplication, kept here for fidelity); the two generic fallbacks are
appended last, and `Array.from(new Set(...))` yields the final list. -/
def buildSelectorsForActivity (offerId name : String) (heuristicIds : List String)
    (heuristicFails : Bool) : List String :=
  let c1 : List String :=
    if offerId ≠ "" then
      [prefixAttrSelector offerId, prefixAttrSelector (escQuotes offerId)]
    else []
  let c2 : List String :=
    if name ≠ "" then
      [prefixAttrSelector (escQuotes name), substringAttrSelector (escQuotes name)]
    else []
  let base := c1 ++ c2
  let heur : List String :=
    if heuristicFails then []
    else jsDedup (heuristicIds.map (fun d => exactAttrSelector (escQuotes d)))
  let merged := base ++ heur.filter (fun sel => sel ∉ base)
  jsDedup (merged ++ [fallbackScoped, fallbackPlain])

/-! ### The standard Quiz protocol: per-question answer clicks

A rendered answer option `#rqAnswerOptioni`: whether `waitForSelector`
resolved a handle for it, its `data-option` attribute, and its
`iscorrectoption` flag. -/

structure QuizOption where
  present : Bool
  dataOption : String
  isCorrectOption : Bool
deriving DecidableEq, Repr

/-- Single-answer scan of the extended `Quiz.doQuiz` (numberOfOptions ∈
{2,3,4}): iterate `i` over the options, skip an unresolved handle
(`continue`), and on the first option whose `data-option` equals
`correctAnswer` issue the click and `break`.  Returns the indices clicked
(click and refresh assumed to succeed, as in the nominal protocol run). -/
def singleAnswerClicksRich : List QuizOption → String → Nat → List Nat
  | [], _, _ => []
  | o :: rest, c, i =>
    if o.present = true ∧ o.dataOption = c then [i]
    else singleAnswerClicksRich rest c (i + 1)

/-- Single-answer scan of the plain `Quiz.doQuiz` (Quiz.ts): same
iteration but with no `break` after the click — every matching option is
clicked.  (`waitForSelector` there has no catch, so this models the run in
which every option is present.) -/
def singleAnswerClicksSimple : List QuizOption → String → Nat → List Nat
  | [], _, _ => []
  | o :: rest, c, i =>
    (if o.dataOption = c then [i] else []) ++ singleAnswerClicksSimple rest c (i + 1)

/-- Multi-answer scan (numberOfOptions = 8): collect every present option
whose `iscorrectoption` attribute is `'true'`; each is clicked in order. -/
def multiAnswerClicks : List QuizOption → Nat → List Nat
  | [], _ => []
  | o :: rest, i =>
    (if o.present = true ∧ o.isCorrectOption = true then [i] else []) ++
    multiAnswerClicks rest (i + 1)

/-- The per-question branch of the extended `Quiz.doQuiz`:
`numberOfOptions === 8` → multi-answer; `[2,3,4].includes(numberOfOptions)`
→ single-answer with break; anything else → no clicks (warning + break). -/
def quizQuestionClicksRich (n : Nat) (options : List QuizOption) (correct : String) :
    List Nat :=
  if n = 8 then multiAnswerClicks options 0
  else if n = 2 ∨ n = 3 ∨ n = 4 then singleAnswerClicksRich options correct 0
  else []

/-- The per-question branch of the plain `Quiz.doQuiz` (Quiz.ts): same
dispatch, single-answer without break. -/
def quizQuestionClicksSimple (n : Nat) (options : List QuizOption) (correct : String) :
    List Nat :=
  if n = 8 then multiAnswerClicks options 0
  else if n = 2 ∨ n = 3 ∨ n = 4 then singleAnswerClicksSimple options correct 0
  else []

/-! ### The ABC protocol loop -/

/-- Outcome reported by `ABC.doABC` after its loop. -/
inductive ABCResult where
  | completedLog
  | convergenceWarning
  | errorLogged
deriving DecidableEq, Repr

/-- The ABC question loop
`for (i = 0; i < maxIterations && !$('span.rw_icon').length; i++)` with
`maxIterations = 15`.  `marker i` is whether the completion marker
`span.rw_icon` is present when the condition is evaluated with counter
value `i`; `bodyFails i` is whether the i-th body iteration throws (an
unguarded `waitForSelector` timeout), which the outer catch turns into the
error log.  Returns the reported result and the final counter value; the
counter equalling 15 after the loop produces the failure-to-converge
warning. -/
def abcGo (marker bodyFails : Nat → Bool) : Nat → Nat → ABCResult × Nat
  | 0, i => (if i = 15 then ABCResult.convergenceWarning else ABCResult.completedLog, i)
  | fuel + 1, i =>
    if marker i then
      (if i = 15 then ABCResult.convergenceWarning else ABCResult.completedLog, i)
    else if bodyFails i then (ABCResult.errorLogged, i)
    else abcGo marker bodyFails fuel (i + 1)

/-- `ABC.doABC`'s loop run from `i = 0` with the source's iteration cap. -/
def doABCRun (marker bodyFails : Nat → Bool) : ABCResult × Nat :=
  abcGo marker bodyFails 15 0

/-! ### Page-closing traces of the completion protocols -/

inductive PageAction where
  | logStart
  | waitSelector
  | clickAction
  | typeAction
  | closePage
  | logDone
  | logError
  | logWarn
deriving DecidableEq, Repr

/-- `Poll.doPoll`: log, then `try { wait for the random option, pause,
click, pause, close, log success } catch { close, log error }`.
`clickThrows` is whether `page.click(buttonId)` throws. -/
def doPollTrace (clickThrows : Bool) : List PageAction :=
  if clickThrows then
    [PageAction.logStart, PageAction.waitSelector, PageAction.clickAction,
     PageAction.closePage, PageAction.logError]
  else
    [PageAction.logStart, PageAction.waitSelector, PageAction.clickAction,
     PageAction.closePage, PageAction.logDone]

/-- `ABC.doABC`: the loop (`abcGo`), then `wait(4000); page.close()` and
the final log; a body exception reaches the catch, which closes the page
(guarded) and logs the error. -/
def doABCTrace (marker bodyFails : Nat → Bool) : List PageAction :=
  match (abcGo marker bodyFails 15 0).1 with
  | ABCResult.errorLogged => [PageAction.logStart, PageAction.closePage, PageAction.logError]
  | ABCResult.convergenceWarning =>
    [PageAction.logStart, PageAction.closePage, PageAction.logWarn]
  | ABCResult.completedLog => [PageAction.logStart, PageAction.closePage, PageAction.logDone]

/-- `SearchOnBing.doSearchOnBing`: dismiss messages, fetch the query
(internally caught, falls back to the title), wait for the search bar,
click, type, press Enter, close, log; any throw reaches the catch, which
pauses, closes the page, and logs the error.  `stepThrows` is whether any
of the throwing steps throws. -/
def doSearchOnBingTrace (stepThrows : Bool) : List PageAction :=
  if stepThrows then [PageAction.logStart, PageAction.closePage, PageAction.logError]
  else
    [PageAction.logStart, PageAction.waitSelector, PageAction.clickAction,
     PageAction.typeAction, PageAction.closePage, PageAction.logDone]

/-- How the extended `Quiz.doQuiz` leaves its page. -/
inductive QuizExit where
  | startClickFailed
  | invalidData
  | refreshFailed
  | finished
  | errored
deriving DecidableEq, Repr

/-- One question iteration as the loop sees it: the eight-option branch
with the refresh result after each clicked answer, the few-option branch
with its single refresh result, or an unsupported option count (which
breaks the loop with a warning). -/
inductive QuestionKind where
  | eightOpt (refreshResults : List Bool)
  | fewOpt (refreshFails : Bool)
  | unsupported
deriving DecidableEq, Repr

/-- The environment of one extended `Quiz.doQuiz` run. -/
structure QuizEnv where
  bodyThrows : Bool
  quizNotStarted : Bool
  startClickSucceeds : Bool
  quizDataValid : Bool
  questions : List QuestionKind
deriving DecidableEq, Repr

/-- The question loop: a failed `waitForQuizRefresh` closes the page and
returns; an unsupported option count breaks (the loop ends and the normal
close runs); otherwise the loop proceeds to the next question. -/
def quizLoopExit : List QuestionKind → QuizExit
  | [] => QuizExit.finished
  | QuestionKind.eightOpt refreshes :: rest =>
    if refreshes.contains false then QuizExit.refreshFailed else quizLoopExit rest
  | QuestionKind.fewOpt refreshFails :: rest =>
    if refreshFails then QuizExit.refreshFailed else quizLoopExit rest
  | QuestionKind.unsupported :: _ => QuizExit.finished

/-- Which exit path the extended `Quiz.doQuiz` takes: the catch (body
exception), the failed `#rqStartQuiz` click, invalid initial quiz data, or
the question loop's own exit. -/
def doQuizExit (e : QuizEnv) : QuizExit :=
  if e.bodyThrows then QuizExit.errored
  else if e.quizNotStarted && !e.startClickSucceeds then QuizExit.startClickFailed
  else if !e.quizDataValid then QuizExit.invalidData
  else quizLoopExit e.questions

/-- The page-relevant trace of the extended `Quiz.doQuiz`: every exit path
closes the page (start-click failure and invalid data log the error first
and then close; a refresh failure closes and then logs; normal completion
and the catch close as well). -/
def doQuizTrace (e : QuizEnv) : List PageAction :=
  match doQuizExit e with
  | QuizExit.startClickFailed => [PageAction.logStart, PageAction.logError, PageAction.closePage]
  | QuizExit.invalidData => [PageAction.logStart, PageAction.logError, PageAction.closePage]
  | QuizExit.refreshFailed => [PageAction.logStart, PageAction.closePage, PageAction.logError]
  | QuizExit.finished => [PageAction.logStart, PageAction.closePage, PageAction.logDone]
  | QuizExit.errored => [PageAction.logStart, PageAction.closePage, PageAction.logError]

/-! ### Concrete sample inputs used in the counterexamples and witnesses -/

/-- A `robustTryClickSelector` attempt on a locator that never resolves. -/
def stateNotFoundR : AttemptState :=
  ⟨false, false, true, false, 0, false, false⟩

/-- A `robustTryClickSelector` attempt where the element is visible but
every click strategy fails. -/
def stateClickFailR : AttemptState :=
  ⟨false, true, true, false, 0, false, false⟩

/-- A `clickWithRetries` attempt on a locator that never resolves. -/
def stateNotFoundQ : AttemptStateQ :=
  ⟨false, false, true, false, 0, false, false⟩

/-- A `clickWithRetries` attempt where the element is visible but every
click strategy fails. -/
def stateClickFailQ : AttemptStateQ :=
  ⟨false, true, true, false, 0, false, false⟩

/-- A `clickWithRetries` attempt where the element is style-hidden, the
overlay scan hides two covering overlays, and the click then succeeds. -/
def stateCssHiddenLeakQ : AttemptStateQ :=
  ⟨false, true, true, true, 2, true, false⟩

/-- An incomplete punch-card child promotion worth zero points. -/
def punchChildZeroMax : ActivityRecord :=
  ⟨"offer-1", "child-1", "Child activity", "quiz", 0, false, "", false, false, false⟩

/-- A punch card whose parent promotion exists, is titled, and is not
complete, with the zero-point child. -/
def punchCardZeroMax : PunchCard :=
  ⟨true, false, "Sample punch card", [punchChildZeroMax]⟩

/-- An ordinary uncompleted daily-set activity record. -/
def dailyRecordOk : ActivityRecord :=
  ⟨"offer-2", "daily-1", "Daily activity", "quiz", 10, false, "", false, false, false⟩

/-- An ordinary uncompleted punch-card child promotion. -/
def punchChildOk : ActivityRecord :=
  ⟨"offer-3", "child-2", "Child activity", "urlreward", 5, false, "", false, false, false⟩

/-- A well-formed punch card with the ordinary child. -/
def punchCardOk : PunchCard :=
  ⟨true, false, "Sample punch card", [punchChildOk]⟩

/-- The click target for the overlay round-trip examples. -/
def overlayTarget : Elem :=
  ⟨0, none, "block", false, "static", 0, 0, 10, 10, false⟩

/-- A fixed-position overlay whose visibility comes from an inline
`display:flex` overriding a style-sheet `display:none`. -/
def overlayInlineStyled : Elem :=
  ⟨1, some "flex", "none", false, "fixed", 0, 0, 10, 10, false⟩

/-- A fixed-position overlay with no inline display declaration. -/
def overlayCleanFixed : Elem :=
  ⟨1, none, "block", false, "fixed", 0, 0, 10, 10, false⟩

/-- A DOM in which the overlay's visibility depends on its inline style. -/
def domWithInlineOverlay : List Elem :=
  [overlayTarget, overlayInlineStyled]

/-- A DOM with no inline display declarations and no stale markers. -/
def domClean : List Elem :=
  [overlayTarget, overlayCleanFixed]

/-- A quiz option carrying data token `A`. -/
def optionTokenA : QuizOption :=
  ⟨true, "A", false⟩

/-- A quiz option carrying data token `B`. -/
def optionTokenB : QuizOption :=
  ⟨true, "B", false⟩

/-! ## Helper lemmas -/

/-- `tryOnce` never leaves overlays hidden: the only path that suppresses
overlays continues into `clickPhase`, which models the unconditional
`restoreHiddenOverlays` call before the outcome is evaluated. -/
theorem tryOnce_hiddenLeft (s : AttemptState) : (tryOnce s).2 = 0 := by
  unfold tryOnce clickPhase
  split_ifs <;> rfl

/-- The only failure reasons `tryOnce` can produce are the four from its
return statements; in particular `visibility-check-error`, `no-candidates`
and `max-retries` never occur at the single-attempt level. -/
theorem tryOnce_failure_reason (s : AttemptState) (r : ClickReason) (d : Nat)
    (h : tryOnce s = (ClickOutcome.failure r, d)) :
    r = ClickReason.notFound ∨ r = ClickReason.zeroBoundingBox ∨
    r = ClickReason.cssHidden ∨ r = ClickReason.clickFailed := by
  unfold tryOnce clickPhase at h
  split_ifs at h <;> simp_all

/-- The attempt loop of `robustTryClickSelector` preserves the count of
overlays left hidden (every attempt restores what it suppressed). -/
theorem robustLoop_hiddenLeft (states : List AttemptState) (hidden : Nat) :
    (robustLoop states hidden).hiddenLeft = hidden := by
  induction states generalizing hidden with
  | nil => rfl
  | cons s rest ih =>
    have hd : (tryOnce s).2 = 0 := tryOnce_hiddenLeft s
    simp only [robustLoop]
    cases h : tryOnce s with
    | mk out d =>
      rw [h] at hd
      subst hd
      cases out with
      | success p => simp
      | failure reason =>
        by_cases hr : retriableReason reason = true
        · simp [hr, ih]
        · simp [hr]

/-- Any failure outcome of the `robustTryClickSelector` loop carries one of
the five documented reasons. -/
theorem robustLoop_failure_reason (states : List AttemptState) (hidden : Nat)
    (r : ClickReason)
    (h : (robustLoop states hidden).outcome = ClickOutcome.failure r) :
    r = ClickReason.notFound ∨ r = ClickReason.zeroBoundingBox ∨
    r = ClickReason.cssHidden ∨ r = ClickReason.clickFailed ∨
    r = ClickReason.maxRetries := by
  induction states generalizing hidden with
  | nil =>
    simp only [robustLoop] at h
    simp_all
  | cons s rest ih =>
    simp only [robustLoop] at h
    cases ht : tryOnce s with
    | mk out d =>
      rw [ht] at h
      cases out with
      | success p => simp_all
      | failure reason =>
        by_cases hr : retriableReason reason = true
        · simp only [hr, if_true] at h
          exact ih (hidden + d) h
        · have hrf : retriableReason reason = false := by simpa using hr
          simp [hrf] at h
          subst h
          rcases tryOnce_failure_reason s reason d ht with h1 | h1 | h1 | h1 <;> simp [h1]

/-- If every attempt in the list fails with a retriable reason, the
`robustTryClickSelector` loop consumes every attempt and reports
`max-retries`. -/
theorem robustLoop_all_retriable (states : List AttemptState) (hidden : Nat)
    (h : ∀ s ∈ states, retriableOutcome (tryOnce s) = true) :
    (robustLoop states hidden).outcome = ClickOutcome.failure ClickReason.maxRetries ∧
    (robustLoop states hidden).attempts = states.length := by
  induction states generalizing hidden with
  | nil => exact ⟨rfl, rfl⟩
  | cons s rest ih =>
    have hs : retriableOutcome (tryOnce s) = true := h s (by simp)
    simp only [robustLoop]
    cases ht : tryOnce s with
    | mk out d =>
      rw [ht] at hs
      cases out with
      | success p => simp [retriableOutcome] at hs
      | failure reason =>
        have hr : retriableReason reason = true := hs
        have hrest := ih (hidden + d) (fun x hx => h x (by simp [hx]))
        simp [hr, hrest.1, hrest.2]

/-- The primary-selector loop of `clickWithRetries` only short-circuits
with a success outcome: every failure either retries or `break`s to the
heuristic phase. -/
theorem cwrFirstLoop_some_success (l : List AttemptStateQ) (hidden h : Nat)
    (out : ClickOutcome) (heq : cwrFirstLoop l hidden = (some out, h)) :
    ∃ p, out = ClickOutcome.success p := by
  induction l generalizing hidden with
  | nil => simp [cwrFirstLoop] at heq
  | cons s rest ih =>
    simp only [cwrFirstLoop] at heq
    cases ht : tryClickOnceQ s with
    | mk o d =>
      rw [ht] at heq
      cases o with
      | success p =>
        simp at heq
        exact ⟨p, heq.1.symm⟩
      | failure reason =>
        by_cases hc : reason = ClickReason.cssHidden ∨ reason = ClickReason.visibilityCheckError
        · simp only [hc, if_true] at heq
          exact ih (hidden + d) heq
        · simp [hc] at heq

/-- The per-candidate loop of `clickWithRetries` likewise only
short-circuits with a success outcome. -/
theorem cwrOneCand_some_success (l : List AttemptStateQ) (hidden h : Nat)
    (out : ClickOutcome) (heq : cwrOneCand l hidden = (some out, h)) :
    ∃ p, out = ClickOutcome.success p := by
  induction l generalizing hidden with
  | nil => simp [cwrOneCand] at heq
  | cons s rest ih =>
    simp only [cwrOneCand] at heq
    cases ht : tryClickOnceQ s with
    | mk o d =>
      rw [ht] at heq
      cases o with
      | success p =>
        simp at heq
        exact ⟨p, heq.1.symm⟩
      | failure reason =>
        by_cases hc : reason = ClickReason.cssHidden ∨ reason = ClickReason.visibilityCheckError ∨
            reason = ClickReason.clickFailed
        · simp only [hc, if_true] at heq
          exact ih (hidden + d) heq
        · simp [hc] at heq

/-- A failure outcome of the heuristic-candidate phase is always
`max-retries`. -/
theorem cwrCands_failure_reason (cs : List (List AttemptStateQ)) (hidden : Nat)
    (r : ClickReason) (heq : (cwrCands cs hidden).1 = ClickOutcome.failure r) :
    r = ClickReason.maxRetries := by
  induction cs generalizing hidden with
  | nil =>
    simp [cwrCands] at heq
    exact heq.symm
  | cons c rest ih =>
    simp only [cwrCands] at heq
    cases hc : cwrOneCand c hidden with
    | mk o h =>
      rw [hc] at heq
      cases o with
      | some out =>
        obtain ⟨p, hp⟩ := cwrOneCand_some_success c hidden h out hc
        subst hp
        simp at heq
      | none => exact ih h heq

/-- Every element of a js-set de-duplication is outside the seen set. -/
theorem jsDedupAux_not_mem_seen {α : Type} [DecidableEq α] (l seen : List α) (x : α)
    (hx : x ∈ jsDedupAux l seen) : x ∉ seen := by
  induction l generalizing seen with
  | nil => simp [jsDedupAux] at hx
  | cons a rest ih =>
    simp only [jsDedupAux] at hx
    by_cases ha : a ∈ seen
    · rw [if_pos ha] at hx
      exact ih seen hx
    · rw [if_neg ha] at hx
      rcases List.mem_cons.mp hx with hxa | hxr
      · subst hxa; exact ha
      · intro hxs
        exact ih (a :: seen) hxr (List.mem_cons_of_mem a hxs)

/-- Js-set de-duplication produces a list without duplicates. -/
theorem jsDedupAux_nodup {α : Type} [DecidableEq α] (l seen : List α) :
    (jsDedupAux l seen).Nodup := by
  induction l generalizing seen with
  | nil => simp [jsDedupAux]
  | cons a rest ih =>
    simp only [jsDedupAux]
    by_cases ha : a ∈ seen
    · rw [if_pos ha]
      exact ih seen
    · rw [if_neg ha]
      refine List.nodup_cons.mpr ⟨?_, ih (a :: seen)⟩
      intro hmem
      exact jsDedupAux_not_mem_seen rest (a :: seen) a hmem (by simp)

/-- `Array.from(new Set(xs))` has no duplicate entries. -/
theorem jsDedup_nodup {α : Type} [DecidableEq α] (l : List α) : (jsDedup l).Nodup :=
  jsDedupAux_nodup l []

/-- De-duplicating a non-empty list yields a non-empty list. -/
theorem jsDedup_ne_nil {α : Type} [DecidableEq α] (l : List α) (h : l ≠ []) :
    jsDedup l ≠ [] := by
  cases l with
  | nil => exact absurd rfl h
  | cons a t => simp [jsDedup, jsDedupAux]

/-- The ABC loop counter never exceeds its starting value plus the fuel. -/
theorem abcGo_counter_le (marker bodyFails : Nat → Bool) (fuel i : Nat) :
    (abcGo marker bodyFails fuel i).2 ≤ i + fuel := by
  induction fuel generalizing i with
  | zero => simp [abcGo]
  | succ f ih =>
    simp only [abcGo]
    by_cases hm : marker i = true
    · simp [hm]
    · rw [if_neg (by simp [hm])]
      by_cases hb : bodyFails i = true
      · simp [hb]
      · rw [if_neg (by simp [hb])]
        have := ih (i + 1)
        omega

/-- When the completion marker never appears and no iteration throws, the
ABC loop walks its counter from `i` through the whole fuel budget. -/
theorem abcGo_all_false (marker bodyFails : Nat → Bool)
    (hm : ∀ i, marker i = false) (hb : ∀ i, bodyFails i = false) (fuel i : Nat) :
    abcGo marker bodyFails fuel i =
      ((if i + fuel = 15 then ABCResult.convergenceWarning else ABCResult.completedLog),
       i + fuel) := by
  induction fuel generalizing i with
  | zero => simp [abcGo]
  | succ f ih =>
    simp only [abcGo, hm i, hb i]
    simp only [Bool.false_eq_true, if_false]
    rw [ih (i + 1)]
    have harith : i + 1 + f = i + (f + 1) := by omega
    rw [harith]

/-- The dispatcher loop distributes over list append: the log of a
concatenation is the concatenation of the logs. -/
theorem solveActivities_append (l1 l2 : List ActivityEnv) :
    solveActivities (l1 ++ l2) = solveActivities l1 ++ solveActivities l2 := by
  induction l1 with
  | nil => simp [solveActivities]
  | cons e rest ih =>
    simp only [List.cons_append, solveActivities]
    exact congrArg _ ih

/-- The dispatcher loop logs exactly one entry per activity. -/
theorem solveActivities_length (l : List ActivityEnv) :
    (solveActivities l).length = l.length := by
  induction l with
  | nil => rfl
  | cons e rest ih => simp [solveActivities, ih]

/-- Restoring after hiding is the identity on an element that carried no
marker and no inline display declaration beforehand. -/
theorem restoreFn_hideFn (t e : Elem) (hm : e.hiddenMarker = false)
    (hi : e.inlineDisplay = none) : restoreFn (hideFn t e) = e := by
  unfold hideFn restoreFn
  by_cases hs : suppressTargets t e = true <;> cases e <;> simp_all

/-- Restoring a DOM none of whose elements carries the marker leaves it
unchanged. -/
theorem restore_map_id (l : List Elem) (h : ∀ e ∈ l, e.hiddenMarker = false) :
    l.map restoreFn = l := by
  induction l with
  | nil => rfl
  | cons a t ih =>
    have ha : restoreFn a = a := by
      unfold restoreFn
      rw [if_neg (by simp [h a (by simp)])]
    simp only [List.map_cons, ha, ih (fun e he => h e (by simp [he]))]

/-- Suppress-then-restore is the identity on a DOM with no stale markers
and no inline display declarations. -/
theorem restore_hide_map (t : Elem) (l : List Elem)
    (hm : ∀ e ∈ l, e.hiddenMarker = false) (hi : ∀ e ∈ l, e.inlineDisplay = none) :
    (l.map (hideFn t)).map restoreFn = l := by
  induction l with
  | nil => rfl
  | cons a rest ih =>
    simp only [List.map_cons]
    rw [restoreFn_hideFn t a (hm a (by simp)) (hi a (by simp)),
      ih (fun e he => hm e (by simp [he])) (fun e he => hi e (by simp [he]))]

/-- With no matching option anywhere, the plain single-answer scan issues
no clicks. -/
theorem singleAnswerClicksSimple_nil (options : List QuizOption) (c : String)
    (h : ∀ o ∈ options, ¬ o.dataOption = c) :
    ∀ i, singleAnswerClicksSimple options c i = [] := by
  induction options with
  | nil => intro i; rfl
  | cons o rest ih =>
    intro i
    simp only [singleAnswerClicksSimple]
    rw [if_neg (h o (by simp))]
    simp only [List.nil_append]
    exact ih (fun x hx => h x (by simp [hx])) (i + 1)

/-- With every option present and exactly one option carrying the correct
token, both single-answer scans click exactly that option, once. -/
theorem singleAnswer_clicks_unique (options : List QuizOption) (c : String) :
    ∀ i, (∀ o ∈ options, o.present = true) →
    options.countP (fun o => decide (o.dataOption = c)) = 1 →
    ∃ j o, singleAnswerClicksRich options c i = [i + j] ∧
      singleAnswerClicksSimple options c i = [i + j] ∧
      options[j]? = some o ∧ o.dataOption = c := by
  induction options with
  | nil =>
    intro i hp hc
    simp at hc
  | cons o rest ih =>
    intro i hp hc
    by_cases hmatch : o.dataOption = c
    · have hnone : ∀ x ∈ rest, ¬ x.dataOption = c := by
        simp [List.countP_cons, hmatch] at hc
        exact hc
      have hnil : singleAnswerClicksSimple rest c (i + 1) = [] :=
        singleAnswerClicksSimple_nil rest c hnone (i + 1)
      refine ⟨0, o, ?_, ?_, by simp, hmatch⟩
      · simp [singleAnswerClicksRich, hp o (by simp), hmatch]
      · simp [singleAnswerClicksSimple, hmatch, hnil]
    · have hcount : rest.countP (fun x => decide (x.dataOption = c)) = 1 := by
        simpa [List.countP_cons, hmatch] using hc
      obtain ⟨j, ob, h1, h2, h3, h4⟩ :=
        ih (i + 1) (fun x hx => hp x (by simp [hx])) hcount
      refine ⟨j + 1, ob, ?_, ?_, by simpa using h3, h4⟩
      · simp only [singleAnswerClicksRich]
        rw [if_neg (by simp [hmatch])]
        rw [h1]
        congr 1
        omega
      · simp only [singleAnswerClicksSimple]
        rw [if_neg hmatch]
        simp only [List.nil_append]
        rw [h2]
        congr 1
        omega

/-- `Workers.robustTryClickSelector` honours the scoped-release contract
of the overlay manager: whatever the per-attempt page observations, no
overlays remain suppressed when it returns. -/
theorem robustTryClickSelector_no_leak (states : List AttemptState) :
    (robustTryClickSelector states).hiddenLeft = 0 :=
  robustLoop_hiddenLeft states 0

/-! ## Claim theorems -/

/-- Claim C1 (code-bug evidence): on a click attempt whose target is
style-hidden and where `hideBlockingOverlays` hides two covering overlays,
`Quiz.clickWithRetries` returns success with both overlays still hidden —
it contains no restore call on any exit path, so suppression state leaks
to the caller and across attempts.  (`Workers.robustTryClickSelector`, by
contrast, satisfies the contract: see `robustTryClickSelector_no_leak`.) -/
theorem c1_clickWithRetries_leaks_suppression :
    clickWithRetries [stateCssHiddenLeakQ] [] = (ClickOutcome.success false, 2) ∧
    (clickWithRetries [stateCssHiddenLeakQ] []).2 ≠ 0 := by
  decide

/-- Claim C2 counterexample: an incomplete punch-card child promotion with
`pointProgressMax = 0` is dispatched to `solveActivities` by `doPunchCard`,
whose child filter tests only `!complete` — so the claimed pre-filtering
invariant fails on the punch-card entry point. -/
theorem c2_counterexample :
    punchChildZeroMax ∈ punchCardDispatched [punchCardZeroMax] ∧
    punchChildZeroMax.pointProgressMax ≤ 0 ∧ punchChildZeroMax.complete = false := by
  decide

/-- Claim C2 (amended): the daily-set and more-promotions entry points
dispatch only records with `complete = false` and `pointProgressMax > 0`;
the punch-card entry point guarantees only `complete = false` for the
child promotions it dispatches. -/
theorem c2_amended_prefilter (todayData : Option (List ActivityRecord))
    (more : List ActivityRecord) (promotionalItem : Option ActivityRecord)
    (cards : List PunchCard) :
    (∀ x ∈ dailySetUncompleted todayData, x.complete = false ∧ 0 < x.pointProgressMax) ∧
    (∀ x ∈ morePromotionsUncompleted more promotionalItem,
      x.complete = false ∧ 0 < x.pointProgressMax) ∧
    (∀ x ∈ punchCardDispatched cards, x.complete = false) := by
  refine ⟨?_, ?_, ?_⟩
  · intro x hx
    simp [dailySetUncompleted, List.mem_filter] at hx
    exact ⟨hx.2.1, hx.2.2⟩
  · intro x hx
    simp [morePromotionsUncompleted, List.mem_filter] at hx
    rcases hx with ⟨_, hcond, _⟩ | ⟨_, hcond, _⟩ <;> exact ⟨hcond.1, hcond.2⟩
  · intro x hx
    simp only [punchCardDispatched, List.mem_flatMap] at hx
    obtain ⟨pc, _, hxin⟩ := hx
    unfold punchCardActivities at hxin
    split at hxin
    · simp [List.mem_filter] at hxin
      exact hxin.2
    · simp at hxin

/-- Witness for `c2_amended_prefilter` at concrete inputs. -/
theorem c2_amended_witness :
    (dailyRecordOk.complete = false ∧ 0 < dailyRecordOk.pointProgressMax) ∧
    punchChildOk.complete = false :=
  ⟨(c2_amended_prefilter (some [dailyRecordOk]) [] none [punchCardOk]).1 dailyRecordOk
      (by decide),
    (c2_amended_prefilter (some [dailyRecordOk]) [] none [punchCardOk]).2.2 punchChildOk
      (by decide)⟩

/-- Claim C3 counterexample: on a locator that never resolves to an
element, `Quiz.clickWithRetries` does not return `not-found` at a cost of
one attempt — the `not-found` failure breaks to the heuristic candidate
scan, and with no candidates the caller receives `no-candidates`. -/
theorem c3_counterexample :
    clickWithRetries [stateNotFoundQ, stateNotFoundQ, stateNotFoundQ] [] =
      (ClickOutcome.failure ClickReason.noCandidates, 0) ∧
    ClickReason.noCandidates ≠ ClickReason.notFound := by
  decide

/-- Claim C3 (amended): the claimed retry policy holds for
`Workers.robustTryClickSelector`: a failure with a non-retriable reason is
returned to the caller immediately at a cost of exactly one attempt; a
second attempt happens only when the previous attempt failed with
`click-failed` or `css-hidden` (the third reason in the code's retry list,
`visibility-check-error`, is never produced by `tryOnce`); and exhausting
every attempt with retriable failures yields `max-retries`.
`Quiz.clickWithRetries` does not obey this policy (see
`c3_counterexample`). -/
theorem c3_amended_retry_policy :
    (∀ (s : AttemptState) (rest : List AttemptState) (r : ClickReason) (d : Nat),
      tryOnce s = (ClickOutcome.failure r, d) → retriableReason r = false →
      robustTryClickSelector (s :: rest) = ⟨ClickOutcome.failure r, 1, d⟩) ∧
    (∀ (s : AttemptState) (rest : List AttemptState) (hidden : Nat),
      2 ≤ (robustLoop (s :: rest) hidden).attempts →
      (tryOnce s).1 = ClickOutcome.failure ClickReason.clickFailed ∨
      (tryOnce s).1 = ClickOutcome.failure ClickReason.cssHidden) ∧
    (∀ states : List AttemptState,
      (∀ s ∈ states, retriableOutcome (tryOnce s) = true) →
      (robustTryClickSelector states).outcome =
        ClickOutcome.failure ClickReason.maxRetries ∧
      (robustTryClickSelector states).attempts = states.length) := by
  refine ⟨?_, ?_, ?_⟩
  · intro s rest r d h hr
    unfold robustTryClickSelector
    simp only [robustLoop]
    rw [h]
    simp [hr]
  · intro s rest hidden hat
    simp only [robustLoop] at hat
    cases ht : tryOnce s with
    | mk out d =>
      rw [ht] at hat
      cases out with
      | success p => simp at hat
      | failure reason =>
        by_cases hr : retriableReason reason = true
        · rcases tryOnce_failure_reason s reason d ht with h1 | h1 | h1 | h1 <;> subst h1
          · simp [retriableReason] at hr
          · simp [retriableReason] at hr
          · exact Or.inr rfl
          · exact Or.inl rfl
        · have hrf : retriableReason reason = false := by simpa using hr
          simp [hrf] at hat
  · intro states h
    exact robustLoop_all_retriable states 0 h

/-- Witness for `c3_amended_retry_policy`: a never-resolving locator costs
exactly one attempt and returns `not-found`; a list of two always-failing
click attempts is exhausted into `max-retries` after both attempts. -/
theorem c3_amended_witness :
    robustTryClickSelector [stateNotFoundR, stateNotFoundR, stateNotFoundR] =
      ⟨ClickOutcome.failure ClickReason.notFound, 1, 0⟩ ∧
    (robustTryClickSelector [stateClickFailR, stateClickFailR]).outcome =
      ClickOutcome.failure ClickReason.maxRetries ∧
    (robustTryClickSelector [stateClickFailR, stateClickFailR]).attempts = 2 :=
  ⟨c3_amended_retry_policy.1 stateNotFoundR [stateNotFoundR, stateNotFoundR]
      ClickReason.notFound 0 (by decide) (by decide),
    (c3_amended_retry_policy.2.2 [stateClickFailR, stateClickFailR] (by decide)).1,
    (c3_amended_retry_policy.2.2 [stateClickFailR, stateClickFailR] (by decide)).2⟩

/-- Claim C4 counterexample: `Quiz.clickWithRetries` can return the
failure reason `no-candidates`, which is outside the claimed reason set. -/
theorem c4_counterexample :
    (clickWithRetries [stateClickFailQ] []).1 =
      ClickOutcome.failure ClickReason.noCandidates ∧
    ClickReason.noCandidates ∉
      [ClickReason.notFound, ClickReason.zeroBoundingBox, ClickReason.cssHidden,
        ClickReason.clickFailed, ClickReason.maxRetries] := by
  decide

/-- Claim C4 (amended): every failure reason returned by
`Workers.robustTryClickSelector` lies in the claimed five-element set;
`Quiz.clickWithRetries` instead returns failures only with
`no-candidates` or `max-retries`, so `no-candidates` also reaches
callers. -/
theorem c4_amended_reason_sets :
    (∀ (states : List AttemptState) (r : ClickReason),
      (robustTryClickSelector states).outcome = ClickOutcome.failure r →
      r ∈ [ClickReason.notFound, ClickReason.zeroBoundingBox, ClickReason.cssHidden,
        ClickReason.clickFailed, ClickReason.maxRetries]) ∧
    (∀ (primary : List AttemptStateQ) (candidates : List (List AttemptStateQ))
      (r : ClickReason),
      (clickWithRetries primary candidates).1 = ClickOutcome.failure r →
      r = ClickReason.noCandidates ∨ r = ClickReason.maxRetries) := by
  constructor
  · intro states r h
    rcases robustLoop_failure_reason states 0 r h with h1 | h1 | h1 | h1 | h1 <;> simp [h1]
  · intro primary candidates r h
    unfold clickWithRetries at h
    cases hf : cwrFirstLoop primary 0 with
    | mk o hid =>
      rw [hf] at h
      cases o with
      | some out =>
        obtain ⟨p, hp⟩ := cwrFirstLoop_some_success primary 0 hid out hf
        subst hp
        simp at h
      | none =>
        by_cases hc : candidates.isEmpty = true
        · simp [hc] at h
          exact Or.inl h.symm
        · simp [hc] at h
          exact Or.inr (cwrCands_failure_reason candidates hid r h)

/-- Witness for `c4_amended_reason_sets` at concrete inputs. -/
theorem c4_amended_witness :
    ClickReason.notFound ∈ [ClickReason.notFound, ClickReason.zeroBoundingBox,
      ClickReason.cssHidden, ClickReason.clickFailed, ClickReason.maxRetries] ∧
    (ClickReason.noCandidates = ClickReason.noCandidates ∨
      ClickReason.noCandidates = ClickReason.maxRetries) :=
  ⟨c4_amended_reason_sets.1 [stateNotFoundR] ClickReason.notFound (by decide),
    c4_amended_reason_sets.2 [stateNotFoundQ] [] ClickReason.noCandidates (by decide)⟩

/-- Claim C5: for a quiz question with 2, 3 or 4 options, every option
rendered, and exactly one option whose `data-option` token equals
`correctAnswer`, both implementations of the standard Quiz protocol issue
exactly one answer click for the question, and it targets exactly the
option carrying the correct token. -/
theorem c5_single_answer_clicks (n : Nat) (options : List QuizOption) (correct : String)
    (hn : n = 2 ∨ n = 3 ∨ n = 4) (_hlen : options.length = n)
    (hp : ∀ o ∈ options, o.present = true)
    (hu : options.countP (fun o => decide (o.dataOption = correct)) = 1) :
    ∃ j o, quizQuestionClicksRich n options correct = [j] ∧
      quizQuestionClicksSimple n options correct = [j] ∧
      options[j]? = some o ∧ o.dataOption = correct := by
  have hne8 : ¬ n = 8 := by rcases hn with h | h | h <;> omega
  obtain ⟨j, o, h1, h2, h3, h4⟩ := singleAnswer_clicks_unique options correct 0 hp hu
  simp only [Nat.zero_add] at h1 h2
  refine ⟨j, o, ?_, ?_, h3, h4⟩
  · simp only [quizQuestionClicksRich, if_neg hne8, if_pos hn]
    exact h1
  · simp only [quizQuestionClicksSimple, if_neg hne8, if_pos hn]
    exact h2

/-- Witness for `c5_single_answer_clicks`: a two-option question with
correct token `B`. -/
theorem c5_witness :
    ((2 = 2 ∨ 2 = 3 ∨ 2 = 4) ∧
      [optionTokenA, optionTokenB].countP (fun o => decide (o.dataOption = "B")) = 1) ∧
    (∃ j o, quizQuestionClicksRich 2 [optionTokenA, optionTokenB] "B" = [j] ∧
      quizQuestionClicksSimple 2 [optionTokenA, optionTokenB] "B" = [j] ∧
      [optionTokenA, optionTokenB][j]? = some o ∧ o.dataOption = "B") :=
  ⟨⟨Or.inl rfl, by decide⟩,
    c5_single_answer_clicks 2 [optionTokenA, optionTokenB] "B" (Or.inl rfl) (by decide)
      (by decide) (by decide)⟩

/-- Claim C6: the ABC question loop executes at most 15 iterations on any
input, and when the completion marker never appears (and no iteration
throws) the run ends with the failure-to-converge warning after exactly 15
iterations rather than an exception or an endless loop. -/
theorem c6_abc_iteration_cap (marker bodyFails : Nat → Bool) :
    (doABCRun marker bodyFails).2 ≤ 15 ∧
    ((∀ i, marker i = false) → (∀ i, bodyFails i = false) →
      doABCRun marker bodyFails = (ABCResult.convergenceWarning, 15)) := by
  constructor
  · simpa using abcGo_counter_le marker bodyFails 15 0
  · intro hm hb
    have h := abcGo_all_false marker bodyFails hm hb 15 0
    simpa [doABCRun] using h

/-- Witness for `c6_abc_iteration_cap`: the run in which the marker never
appears and no iteration throws. -/
theorem c6_witness :
    (doABCRun (fun _ => false) (fun _ => false)).2 ≤ 15 ∧
    doABCRun (fun _ => false) (fun _ => false) = (ABCResult.convergenceWarning, 15) :=
  ⟨(c6_abc_iteration_cap (fun _ => false) (fun _ => false)).1,
    (c6_abc_iteration_cap (fun _ => false) (fun _ => false)).2 (fun _ => rfl) (fun _ => rfl)⟩

/-- Claim C7: the dispatcher's per-activity loop is failure-isolating: it
logs exactly one entry per activity, and the processing of one activity —
including an unresolvable one or one whose body throws — never affects the
processing of the activities after it in the list. -/
theorem c7_dispatcher_isolation (pre post : List ActivityEnv) (e : ActivityEnv) :
    solveActivities (pre ++ e :: post) =
      solveActivities pre ++ solveActivities [e] ++ solveActivities post ∧
    (solveActivities (pre ++ e :: post)).length = pre.length + 1 + post.length := by
  constructor
  · rw [solveActivities_append]
    have hsplit : e :: post = [e] ++ post := rfl
    rw [hsplit, solveActivities_append, List.append_assoc]
  · rw [solveActivities_length]
    simp
    omega

/-- Claim C8 counterexample: an overlay whose visibility comes from an
inline `display:flex` (overriding a style-sheet `display:none`) is visible
before suppression but invisible after suppress-then-restore, because
`restoreHiddenOverlays` removes the inline display property instead of
restoring its previous value — the visible element set changes. -/
theorem c8_counterexample :
    visibleIds (restoreHiddenOverlays
      (hideOverlappingOverlays domWithInlineOverlay 0).1).1 ≠
      visibleIds domWithInlineOverlay := by
  decide

/-- Claim C8 (amended): on a DOM in which no element carries a stale
suppression marker and no element has an inline `display` declaration,
suppress-then-restore returns the DOM to exactly its previous state, so
the visible element set is observably identical. -/
theorem c8_amended_roundtrip (dom : List Elem) (targetId : Nat)
    (hm : ∀ e ∈ dom, e.hiddenMarker = false)
    (hi : ∀ e ∈ dom, e.inlineDisplay = none) :
    (restoreHiddenOverlays (hideOverlappingOverlays dom targetId).1).1 = dom ∧
    visibleIds (restoreHiddenOverlays (hideOverlappingOverlays dom targetId).1).1 =
      visibleIds dom := by
  have key : (restoreHiddenOverlays (hideOverlappingOverlays dom targetId).1).1 = dom := by
    unfold hideOverlappingOverlays
    cases hf : dom.find? (fun e => e.idTag = targetId) with
    | none =>
      simp only [restoreHiddenOverlays]
      exact restore_map_id dom hm
    | some t =>
      simp only [restoreHiddenOverlays]
      exact restore_hide_map t dom hm hi
  exact ⟨key, by rw [key]⟩

/-- Witness for `c8_amended_roundtrip` at a concrete clean DOM. -/
theorem c8_amended_witness :
    (restoreHiddenOverlays (hideOverlappingOverlays domClean 0).1).1 = domClean ∧
    visibleIds (restoreHiddenOverlays (hideOverlappingOverlays domClean 0).1).1 =
      visibleIds domClean :=
  c8_amended_roundtrip domClean 0 (by decide) (by decide)

/-- Claim C9: for every activity input, the selector candidate list built
by `buildSelectorsForActivity` is non-empty (the generic fallbacks are
always appended) and contains no duplicate entries. -/
theorem c9_builder_nonempty_nodup (offerId name : String) (heuristicIds : List String)
    (heuristicFails : Bool) :
    buildSelectorsForActivity offerId name heuristicIds heuristicFails ≠ [] ∧
    (buildSelectorsForActivity offerId name heuristicIds heuristicFails).Nodup := by
  constructor
  · apply jsDedup_ne_nil
    simp
  · exact jsDedup_nodup _

/-- Claim C10: the Poll, ABC, SearchOnBing and standard Quiz protocols
close the page they operate on before returning, on every exit path:
normal completion, early aborts (failed start click, invalid quiz data, a
missing refresh signal, failure to converge) and the exception path. -/
theorem c10_protocols_close_page :
    (∀ clickThrows : Bool, PageAction.closePage ∈ doPollTrace clickThrows) ∧
    (∀ marker bodyFails : Nat → Bool, PageAction.closePage ∈ doABCTrace marker bodyFails) ∧
    (∀ stepThrows : Bool, PageAction.closePage ∈ doSearchOnBingTrace stepThrows) ∧
    (∀ e : QuizEnv, PageAction.closePage ∈ doQuizTrace e) := by
  refine ⟨?_, ?_, ?_, ?_⟩
  · intro b
    cases b <;> simp [doPollTrace]
  · intro m b
    unfold doABCTrace
    cases (abcGo m b 15 0).1 <;> simp
  · intro b
    cases b <;> simp [doSearchOnBingTrace]
  · intro e
    unfold doQuizTrace
    cases doQuizExit e <;> simp

end Rewards
